import Mathlib

/-
Verification of `src/backend/src/sockets/player.socket.container.ts`
(class `PlayerSocketDataContainer`): a per-connection WebSocket wrapper with
a single-flight gate, a monotonic sequence counter, an activity watchdog,
and a failure-classification pipeline.

The embedding is a shallow one: the class's mutable fields become a
`Session` record threaded explicitly; the fallible external collaborators
(JSON.parse, the Ajv validator, `processSocketMessage`, the serializer and
the transport write) are modelled by their outcomes, supplied as
environment records, since only their success/failure shape is consumed by
the container code. JS exceptions are `Except JsError`; JS `try/catch` and
`try/finally` are written out explicitly. Two ghost trace fields
(`sendCalls`, `dispatchCalls`) record which collaborator invocations
happened; they are write-only instrumentation and affect no control flow.
-/

namespace GameApp

/-- A schema violation as reported by the Ajv validator
(`instancePath` and `message`, the two fields the container reads). -/
structure Violation where
  instancePath : String
  message : String
deriving DecidableEq, Repr

/-- Outbound message kinds from `OutgoingMsgType` that the container itself
produces; `other` stands for the handler-produced kinds defined outside this
file, whose exact enumeration the container never inspects. -/
inductive OutgoingMsgType
  | PleaseWait
  | BadPayload
  | BadMessageType
  | ServerError
  | other (name : String)
deriving DecidableEq, Repr

/-- The `data` field of an outbound response: either an `info` string or an
`info` list of validator errors (the two shapes the container builds). -/
inductive ResponseData
  | infoStr (s : String)
  | infoErrors (es : List Violation)
deriving DecidableEq, Repr

/-- `MessageHandlerResponse` from `sockets/common`: a type tag plus data. -/
structure MessageHandlerResponse where
  type : OutgoingMsgType
  data : ResponseData
deriving DecidableEq, Repr

/-- A frame actually written to the transport by `send`: the response fields
plus the sequence number stamped into the envelope. -/
structure OutgoingFrame where
  type : OutgoingMsgType
  data : ResponseData
  sequence : Nat
deriving DecidableEq, Repr

/-- Values the JS code can throw, distinguished exactly as the `instanceof`
chain in `processMessage` distinguishes them. `parseError` models a
`SyntaxError` from `JSON.parse`; `error` a generic `Error` instance carrying
`.message`; `nonError` a thrown value that is not an `Error` instance. -/
inductive JsError
  | parseError (msg : String)
  | validationError (errors : List Violation)
  | handlerNotFound (kind : String)
  | error (msg : String)
  | nonError (v : String)
deriving DecidableEq, Repr

/-- `Player` from the models module; the container only reads its UUID. -/
structure Player where
  uuid : String
deriving DecidableEq, Repr

def Player.getUUID (p : Player) : String := p.uuid

/-- WebSocket ready-state codes, numeric values as in the `ws` library. -/
def CONNECTING : Nat := 0

def OPEN : Nat := 1

def CLOSING : Nat := 2

def CLOSED : Nat := 3

/-- The observable state of the underlying WebSocket handle: its ready
state, the frames successfully written, and the close codes passed to
`ws.close`. -/
structure Transport where
  readyState : Nat
  sentFrames : List OutgoingFrame
  closeCalls : List Nat
deriving DecidableEq, Repr

/-- The mutable fields of `PlayerSocketDataContainer`, plus two ghost trace
fields: `sendCalls` records every response handed to `send` (whether or not
the transport accepted it) and `dispatchCalls` counts invocations of the
dispatcher `processSocketMessage`. -/
structure Session where
  locked : Bool
  sequence : Nat
  lastRecvTs : Option Int
  kickTimer : Bool
  player : Option Player
  ws : Transport
  sendCalls : List MessageHandlerResponse
  dispatchCalls : Nat
deriving DecidableEq, Repr

/-- A fresh transport handle in the given ready state. -/
def initTransport (rs : Nat) : Transport :=
  { readyState := rs, sentFrames := [], closeCalls := [] }

/-- Field initial values from the class declaration and constructor:
`locked = false`, `sequence = 0`, `lastRecvTs` left undefined, the kick
interval armed, no player bound. -/
def initSession (ws : Transport) : Session :=
  { locked := false, sequence := 0, lastRecvTs := none, kickTimer := true,
    player := none, ws := ws, sendCalls := [], dispatchCalls := 0 }

/-- `getSequenceNumber() { return ++this.sequence; }` — increments the
counter and returns the incremented value. -/
def getSequenceNumber (s : Session) : Session × Nat :=
  ({ s with sequence := s.sequence + 1 }, s.sequence + 1)

/-- `isLocked()` accessor. -/
def isLocked (s : Session) : Bool := s.locked

/-- `lock()` sets the gate flag. -/
def lock (s : Session) : Session := { s with locked := true }

/-- `unlock()` clears the gate flag. -/
def unlock (s : Session) : Session := { s with locked := false }

/-- `setPlayer(player)` — unconditionally stores the given player. -/
def setPlayer (s : Session) (p : Player) : Session := { s with player := some p }

/-- `getPlayer()` accessor. -/
def getPlayer (s : Session) : Option Player := s.player

/-- Faults the environment may inject into one `send` call: the serializer
throwing, or `ws.send` throwing. -/
structure SendEnv where
  serializeFault : Option JsError
  writeFault : Option JsError
deriving DecidableEq, Repr

/-- The fault-free send environment. -/
def noFaults : SendEnv := { serializeFault := none, writeFault := none }

/-- `send(response)`: inside a try/catch, if the transport is OPEN, build the
envelope (evaluating `getSequenceNumber()` first, so the counter is consumed
before serialization can fail), serialize it and write it; otherwise log a
warning and do nothing. Any error raised inside the try is caught and
logged, never re-raised, so the overall result is always `ok`. The ghost
`sendCalls` append records the invocation itself. -/
def send (s : Session) (resp : MessageHandlerResponse) (env : SendEnv) :
    Session × Except JsError Unit :=
  let s0 := { s with sendCalls := s.sendCalls ++ [resp] }
  let inner : Session × Except JsError Unit :=
    if s0.ws.readyState == OPEN then
      let s1 := (getSequenceNumber s0).1
      let seq := (getSequenceNumber s0).2
      match env.serializeFault with
      | some e => (s1, Except.error e)
      | none =>
        let frame : OutgoingFrame :=
          { type := resp.type, data := resp.data, sequence := seq }
        match env.writeFault with
        | some e => (s1, Except.error e)
        | none =>
          ({ s1 with ws := { s1.ws with sentFrames := s1.ws.sentFrames ++ [frame] } },
            Except.ok ())
    else (s0, Except.ok ())
  (inner.1, Except.ok ())

/-- Outcome of `JSON.parse(data.toString())`: success, or a thrown
`SyntaxError` carrying a message. -/
inductive ParseOutcome
  | ok
  | fail (msg : String)
deriving DecidableEq, Repr

/-- Outcome of `validators.validatePayload(json)`: the boolean result and
the nullable `errors` property the code inspects afterwards. -/
structure ValidateOutcome where
  valid : Bool
  errors : Option (List Violation)
deriving DecidableEq, Repr

/-- Outcome of `await processSocketMessage(this, json)`: a response, or a
thrown value. -/
inductive DispatchOutcome
  | ok (resp : MessageHandlerResponse)
  | thrown (e : JsError)
deriving DecidableEq, Repr

/-- Everything the environment decides during one `processMessage` call:
the current time, `NODE_ENV`, the outcomes of parse/validate/dispatch, an
optional fault raised by the catch handler itself, and the send-level
faults. -/
structure ProcEnv where
  now : Int
  nodeEnv : String
  parse : ParseOutcome
  validate : ValidateOutcome
  dispatch : DispatchOutcome
  classifyFault : Option JsError
  sendEnv : SendEnv
deriving DecidableEq, Repr

/-- The PleaseWait response sent when the gate is already set. -/
def pleaseWaitResponse : MessageHandlerResponse :=
  { type := OutgoingMsgType.PleaseWait,
    data := ResponseData.infoStr
      "Already processing a message on your behalf. Slow down there kiddo!" }

/-- The response built by the catch block for a given thrown value,
following the `instanceof` chain of the source: SyntaxError, then
ValidationError, then HandlerNotFoundError, then the ServerError fallback
whose detail depends on `NODE_ENV` and on whether the value is an `Error`. -/
def classifyError (nodeEnv : String) (e : JsError) : MessageHandlerResponse :=
  match e with
  | JsError.parseError _ =>
    { type := OutgoingMsgType.BadPayload,
      data := ResponseData.infoStr "Your JSON payload was a bit iffy. K thx bye." }
  | JsError.validationError es =>
    { type := OutgoingMsgType.BadPayload, data := ResponseData.infoErrors es }
  | JsError.handlerNotFound k =>
    { type := OutgoingMsgType.BadMessageType,
      data := ResponseData.infoStr ("\"" ++ k ++ "\" is an unrecognised message type") }
  | JsError.error msg =>
    { type := OutgoingMsgType.ServerError,
      data := ResponseData.infoStr
        (if nodeEnv == "dev" then msg else "there was an error processing your payload") }
  | JsError.nonError _ =>
    { type := OutgoingMsgType.ServerError,
      data := ResponseData.infoStr
        (if nodeEnv == "dev" then "unknown error"
          else "there was an error processing your payload") }

/-- The `try` body of `processMessage`: parse (may throw SyntaxError),
validate (a false result throws ValidationError when `errors` is non-null,
else a generic Error with the literal Ajv message), then dispatch and send
the handler response. The ghost `dispatchCalls` increment marks the point
where `processSocketMessage` is invoked. -/
def tryBody (s : Session) (env : ProcEnv) : Session × Except JsError Unit :=
  match env.parse with
  | ParseOutcome.fail msg => (s, Except.error (JsError.parseError msg))
  | ParseOutcome.ok =>
    if env.validate.valid then
      let s1 := { s with dispatchCalls := s.dispatchCalls + 1 }
      match env.dispatch with
      | DispatchOutcome.thrown e => (s1, Except.error e)
      | DispatchOutcome.ok resp => send s1 resp env.sendEnv
    else
      match env.validate.errors with
      | some es => (s, Except.error (JsError.validationError es))
      | none =>
        (s, Except.error (JsError.error
          "Ajv validation failed, but no errors are available to display."))

/-- `processMessage(data)`: if the gate is set, send PleaseWait and return;
otherwise set the gate, stamp `lastRecvTs`, run the try body, on a thrown
value run the catch handler (which may itself raise, modelled by
`classifyFault`), and in all cases clear the gate in the `finally` block,
preserving any exception still pending out of the catch handler. -/
def processMessage (s : Session) (env : ProcEnv) : Session × Except JsError Unit :=
  if s.locked then
    send s pleaseWaitResponse env.sendEnv
  else
    let s2 := { s with locked := true, lastRecvTs := some env.now }
    let b := tryBody s2 env
    let c : Session × Except JsError Unit :=
      match b.2 with
      | Except.ok _ => (b.1, Except.ok ())
      | Except.error e =>
        match env.classifyFault with
        | some f => (b.1, Except.error f)
        | none => send b.1 (classifyError env.nodeEnv e) env.sendEnv
    ({ c.1 with locked := false }, c.2)

/-- The membership test JavaScript's `in` operator actually performs in
`this.ws.readyState in [WebSocket.OPEN, WebSocket.CONNECTING]`: `in` tests
property keys of the two-element array, i.e. the indices 0 and 1 (the array
contents are never compared), so the check holds exactly when the ready
state is 0 or 1. -/
def jsInPairIdx (x : Nat) : Bool := x == 0 || x == 1

/-- The predicate the spec intends: ready state is OPEN or CONNECTING. -/
def isOpenOrConnecting (rs : Nat) : Bool := rs == OPEN || rs == CONNECTING

/-- `close()`: if the (JS `in`) check passes, `ws.close(1000)` — which moves
the socket to CLOSING and records the close code — then `clearInterval` on
the kick timer unconditionally. -/
def close (s : Session) : Session :=
  let ws1 :=
    if jsInPairIdx s.ws.readyState then
      { s.ws with readyState := CLOSING, closeCalls := s.ws.closeCalls ++ [1000] }
    else s.ws
  { s with ws := ws1, kickTimer := false }

/-- The eviction decision of the kick-interval callback, as a pure function
of the current time, the stored `lastRecvTs` and the configured timeout:
kick when `lastRecvTs` is undefined or `now - lastRecvTs > timeout`. -/
def kickDecision (now : Int) (lastRecvTs : Option Int) (timeoutMs : Int) : Bool :=
  match lastRecvTs with
  | none => true
  | some t => decide (now - t > timeoutMs)

/-- One tick of the watchdog interval: close the session when the eviction
decision fires, otherwise do nothing. -/
def watchdogTick (s : Session) (now timeoutMs : Int) : Session :=
  if kickDecision now s.lastRecvTs timeoutMs then close s else s

/-- Run `send` over a list of responses, threading the session. -/
def sendAll (s : Session) (resps : List MessageHandlerResponse) (env : SendEnv) : Session :=
  match resps with
  | [] => s
  | r :: rest => sendAll (send s r env).1 rest env

/-- A concrete fault-free environment: a well-formed, schema-valid message
whose handler answers with a pong-style response. -/
def envDemo : ProcEnv :=
  { now := 100, nodeEnv := "dev", parse := ParseOutcome.ok,
    validate := { valid := true, errors := none },
    dispatch := DispatchOutcome.ok
      { type := OutgoingMsgType.other "pong", data := ResponseData.infoStr "pong" },
    classifyFault := none, sendEnv := noFaults }

/-- A concrete environment whose dispatch throws and whose catch handler
itself raises a further fault. -/
def envClassifyFaultDemo : ProcEnv :=
  { envDemo with
    dispatch := DispatchOutcome.thrown (JsError.error "boom"),
    classifyFault := some (JsError.nonError "classifier exploded") }

/-- Helper: what one `send` call does and does not touch, on every branch:
it never raises, never changes the gate, the activity timestamp, the player,
the dispatch count, the timer, the ready state or the close-call log, and it
records exactly one invocation in `sendCalls`; when the transport is not
OPEN it also leaves the frame log and the sequence counter untouched. -/
theorem send_effects (s : Session) (resp : MessageHandlerResponse) (env : SendEnv) :
    (send s resp env).2 = Except.ok ()
    ∧ (send s resp env).1.locked = s.locked
    ∧ (send s resp env).1.lastRecvTs = s.lastRecvTs
    ∧ (send s resp env).1.player = s.player
    ∧ (send s resp env).1.dispatchCalls = s.dispatchCalls
    ∧ (send s resp env).1.kickTimer = s.kickTimer
    ∧ (send s resp env).1.ws.readyState = s.ws.readyState
    ∧ (send s resp env).1.ws.closeCalls = s.ws.closeCalls
    ∧ (send s resp env).1.sendCalls = s.sendCalls ++ [resp]
    ∧ (s.ws.readyState ≠ OPEN →
        (send s resp env).1.ws.sentFrames = s.ws.sentFrames
        ∧ (send s resp env).1.sequence = s.sequence) := by
  unfold send getSequenceNumber
  rcases hrs : s.ws.readyState == OPEN with _ | _ <;>
    rcases env.serializeFault with _ | e1 <;>
    rcases env.writeFault with _ | e2 <;>
    simp_all

/-- C7: `send` never propagates an exception to its caller; when the
transport is not in the OPEN state the call performs no transport write and
leaves the session's transport and counter state unchanged (a logged
no-op), and any injected serialization or write fault is swallowed rather
than re-raised. -/
theorem send_never_throws (s : Session) (resp : MessageHandlerResponse) (env : SendEnv) :
    (send s resp env).2 = Except.ok ()
    ∧ (s.ws.readyState ≠ OPEN →
        (send s resp env).1.ws = s.ws ∧ (send s resp env).1.sequence = s.sequence) := by
  unfold send getSequenceNumber
  rcases hrs : s.ws.readyState == OPEN with _ | _ <;>
    rcases env.serializeFault with _ | e1 <;>
    rcases env.writeFault with _ | e2 <;>
    simp_all

/-- C7 witness: a concrete send on a CLOSED transport returns `ok` and
writes nothing. -/
theorem send_never_throws_witness :
    (send (initSession (initTransport CLOSED)) pleaseWaitResponse noFaults).2 = Except.ok ()
    ∧ (send (initSession (initTransport CLOSED)) pleaseWaitResponse noFaults).1.ws
        = (initSession (initTransport CLOSED)).ws
    ∧ (send (initSession (initTransport CLOSED)) pleaseWaitResponse noFaults).1.sequence
        = (initSession (initTransport CLOSED)).sequence := by
  refine ⟨(send_never_throws (initSession (initTransport CLOSED)) pleaseWaitResponse noFaults).1,
    ?_, ?_⟩
  · exact ((send_never_throws (initSession (initTransport CLOSED)) pleaseWaitResponse
      noFaults).2 (by decide)).1
  · exact ((send_never_throws (initSession (initTransport CLOSED)) pleaseWaitResponse
      noFaults).2 (by decide)).2

/-- C1: a message arriving while the gate is set yields exactly one
PleaseWait `send` invocation, never reaches the dispatcher, and leaves the
gate, `lastRecvTs` and the bound player unchanged; no queueing or retry
state exists, and the call returns normally. -/
theorem gated_message_rejected (s : Session) (env : ProcEnv) (h : s.locked = true) :
    (processMessage s env).1.sendCalls = s.sendCalls ++ [pleaseWaitResponse]
    ∧ (processMessage s env).1.dispatchCalls = s.dispatchCalls
    ∧ (processMessage s env).1.locked = s.locked
    ∧ (processMessage s env).1.lastRecvTs = s.lastRecvTs
    ∧ (processMessage s env).1.player = s.player
    ∧ (processMessage s env).2 = Except.ok () := by
  have hs := send_effects s pleaseWaitResponse env.sendEnv
  unfold processMessage
  rw [h]
  simp only [if_true]
  exact ⟨hs.2.2.2.2.2.2.2.2.1, hs.2.2.2.2.1, hs.2.1.trans h, hs.2.2.1, hs.2.2.2.1, hs.1⟩

/-- C1 witness: a locked session with an open transport rejects a concrete
message with a single PleaseWait and unchanged gate, timestamp and player. -/
theorem gated_message_rejected_witness :
    (processMessage (lock (initSession (initTransport OPEN))) envDemo).1.sendCalls
      = (lock (initSession (initTransport OPEN))).sendCalls ++ [pleaseWaitResponse]
    ∧ (processMessage (lock (initSession (initTransport OPEN))) envDemo).1.dispatchCalls
      = (lock (initSession (initTransport OPEN))).dispatchCalls
    ∧ (processMessage (lock (initSession (initTransport OPEN))) envDemo).1.locked
      = (lock (initSession (initTransport OPEN))).locked
    ∧ (processMessage (lock (initSession (initTransport OPEN))) envDemo).1.lastRecvTs
      = (lock (initSession (initTransport OPEN))).lastRecvTs
    ∧ (processMessage (lock (initSession (initTransport OPEN))) envDemo).1.player
      = (lock (initSession (initTransport OPEN))).player
    ∧ (processMessage (lock (initSession (initTransport OPEN))) envDemo).2 = Except.ok () :=
  gated_message_rejected (lock (initSession (initTransport OPEN))) envDemo rfl

/-- C2: once a message is accepted past the gate check, the gate is false
when `processMessage` completes, on every exit path — successful dispatch,
parse failure, validation failure, unknown-kind failure, any other thrown
fault, and a fault raised by the failure classification itself — because the
unlock sits in the `finally` block. -/
theorem gate_cleared_on_exit (s : Session) (env : ProcEnv) (h : s.locked = false) :
    (processMessage s env).1.locked = false := by
  unfold processMessage
  rw [h]
  simp only [if_false, Bool.false_eq_true]

/-- C2 witness: a fresh session processing a message whose catch handler
itself raises still ends with the gate cleared. -/
theorem gate_cleared_on_exit_witness :
    (processMessage (initSession (initTransport OPEN)) envClassifyFaultDemo).1.locked = false :=
  gate_cleared_on_exit (initSession (initTransport OPEN)) envClassifyFaultDemo rfl

/-- Helper: what one fault-free `send` on an OPEN transport does to the
frame log and counter: it appends exactly one frame stamped with
`sequence + 1` and advances the counter to match. -/
theorem send_open_frame (s : Session) (resp : MessageHandlerResponse) :
    (send s resp noFaults).1.ws.sentFrames
      = s.ws.sentFrames
        ++ [{ type := resp.type, data := resp.data, sequence := s.sequence + 1 }]
    ∧ (send s resp noFaults).1.sequence = s.sequence + 1
    ∨ ¬ s.ws.readyState = OPEN
      ∧ (send s resp noFaults).1.ws.sentFrames = s.ws.sentFrames
      ∧ (send s resp noFaults).1.sequence = s.sequence := by
  unfold send getSequenceNumber noFaults
  rcases hrs : s.ws.readyState == OPEN with _ | _ <;> simp_all

/-- Helper invariant for C3: starting from a session on an OPEN transport
whose frame log carries sequence numbers `1..length` and whose counter
equals that length, running any list of fault-free sends preserves the
numbering and grows the log by one frame per response. -/
theorem sendAll_frames_aux (resps : List MessageHandlerResponse) (s : Session)
    (hrs : s.ws.readyState = OPEN)
    (hseq : s.sequence = s.ws.sentFrames.length)
    (hmap : s.ws.sentFrames.map OutgoingFrame.sequence
      = List.range' 1 s.ws.sentFrames.length) :
    (sendAll s resps noFaults).ws.sentFrames.map OutgoingFrame.sequence
      = List.range' 1 (sendAll s resps noFaults).ws.sentFrames.length
    ∧ (sendAll s resps noFaults).ws.sentFrames.length
      = s.ws.sentFrames.length + resps.length := by
  induction resps generalizing s with
  | nil => exact ⟨hmap, by simp [sendAll]⟩
  | cons r rest ih =>
    rcases send_open_frame s r with ⟨hfr, hsq⟩ | ⟨hno, _, _⟩
    · have hrs1 : (send s r noFaults).1.ws.readyState = OPEN :=
        (send_effects s r noFaults).2.2.2.2.2.2.1.trans hrs
      have hlen1 : (send s r noFaults).1.ws.sentFrames.length
          = s.ws.sentFrames.length + 1 := by
        rw [hfr]; simp
      have hseq1 : (send s r noFaults).1.sequence
          = (send s r noFaults).1.ws.sentFrames.length := by
        rw [hsq, hlen1, hseq]
      have hmap1 : (send s r noFaults).1.ws.sentFrames.map OutgoingFrame.sequence
          = List.range' 1 (send s r noFaults).1.ws.sentFrames.length := by
        rw [hfr]
        simp only [List.map_append, List.map_cons, List.map_nil, hmap, hseq,
          List.length_append, List.length_cons, List.length_nil]
        rw [List.range'_concat]
        simp [Nat.add_comm]
      have hrec := ih (send s r noFaults).1 hrs1 hseq1 hmap1
      refine ⟨?_, ?_⟩
      · simpa [sendAll] using hrec.1
      · have : (sendAll s (r :: rest) noFaults) = sendAll (send s r noFaults).1 rest noFaults := rfl
        rw [this, hrec.2, hlen1, List.length_cons]
        omega
    · exact absurd hrs hno

/-- C3: the sequence counter of a fresh session starts at 0; over any run
of fault-free sends on an open connection the n-th frame written carries
sequence n (the frame log reads `[1, 2, ..., N]`, so the first response
carries 1 and rejections and error responses are counted alike, since every
response goes through `send`); and each call of the sequence generator
returns exactly one more than the previous call's result. -/
theorem sequence_numbering (resps : List MessageHandlerResponse) :
    (initSession (initTransport OPEN)).sequence = 0
    ∧ (sendAll (initSession (initTransport OPEN)) resps noFaults).ws.sentFrames.map
        OutgoingFrame.sequence
      = List.range' 1
        ((sendAll (initSession (initTransport OPEN)) resps noFaults).ws.sentFrames.length)
    ∧ ((sendAll (initSession (initTransport OPEN)) resps noFaults).ws.sentFrames.length
      = resps.length)
    ∧ (∀ s : Session,
        (getSequenceNumber (getSequenceNumber s).1).2 = (getSequenceNumber s).2 + 1) := by
  have h := sendAll_frames_aux resps (initSession (initTransport OPEN)) rfl rfl rfl
  exact ⟨rfl, h.1, by simpa [initSession, initTransport] using h.2, fun s => rfl⟩

/-- C4: each failure maps to exactly one outbound response, per the
taxonomy: an unparseable raw payload yields BadPayload with the fixed
generic notice and no raw detail; a payload failing schema validation (with
the validator's non-empty error list, as Ajv guarantees on failure) yields
BadPayload carrying exactly that structured list; an unregistered message
kind yields BadMessageType quoting the kind string verbatim; and any other
`Error` thrown during dispatch yields ServerError whose detail is the
error's message in development mode and the fixed generic notice
otherwise. -/
theorem failure_taxonomy (s : Session) (env : ProcEnv)
    (h : s.locked = false) (hcf : env.classifyFault = none) :
    (∀ msg, env.parse = ParseOutcome.fail msg →
      (processMessage s env).1.sendCalls = s.sendCalls ++
        [{ type := OutgoingMsgType.BadPayload,
           data := ResponseData.infoStr "Your JSON payload was a bit iffy. K thx bye." }])
    ∧ (∀ es, env.parse = ParseOutcome.ok → env.validate.valid = false →
        env.validate.errors = some es → es ≠ [] →
      (processMessage s env).1.sendCalls = s.sendCalls ++
        [{ type := OutgoingMsgType.BadPayload, data := ResponseData.infoErrors es }])
    ∧ (∀ k, env.parse = ParseOutcome.ok → env.validate.valid = true →
        env.dispatch = DispatchOutcome.thrown (JsError.handlerNotFound k) →
      (processMessage s env).1.sendCalls = s.sendCalls ++
        [{ type := OutgoingMsgType.BadMessageType,
           data := ResponseData.infoStr ("\"" ++ k ++ "\" is an unrecognised message type") }])
    ∧ (∀ msg, env.parse = ParseOutcome.ok → env.validate.valid = true →
        env.dispatch = DispatchOutcome.thrown (JsError.error msg) →
      (processMessage s env).1.sendCalls = s.sendCalls ++
        [{ type := OutgoingMsgType.ServerError,
           data := ResponseData.infoStr
             (if env.nodeEnv == "dev" then msg
              else "there was an error processing your payload") }]) := by
  refine ⟨?_, ?_, ?_, ?_⟩
  · intro msg hp
    unfold processMessage tryBody
    rw [h, hp, hcf]
    simp only [if_false, Bool.false_eq_true]
    exact (send_effects _ _ env.sendEnv).2.2.2.2.2.2.2.2.1
  · intro es hp hv he _
    unfold processMessage tryBody
    rw [h, hp, hv, he, hcf]
    simp only [if_false, Bool.false_eq_true]
    exact (send_effects _ _ env.sendEnv).2.2.2.2.2.2.2.2.1
  · intro k hp hv hd
    unfold processMessage tryBody
    rw [h, hp, hv, hd, hcf]
    simp only [if_false, if_true, Bool.false_eq_true]
    exact (send_effects _ _ env.sendEnv).2.2.2.2.2.2.2.2.1
  · intro msg hp hv hd
    unfold processMessage tryBody
    rw [h, hp, hv, hd, hcf]
    simp only [if_false, if_true, Bool.false_eq_true]
    exact (send_effects _ _ env.sendEnv).2.2.2.2.2.2.2.2.1

/-- C4 witness: a concrete unparseable payload on a fresh session yields
exactly the generic BadPayload response. -/
theorem failure_taxonomy_witness :
    (processMessage (initSession (initTransport OPEN))
        { envDemo with parse := ParseOutcome.fail "Unexpected token" }).1.sendCalls
      = (initSession (initTransport OPEN)).sendCalls ++
        [{ type := OutgoingMsgType.BadPayload,
           data := ResponseData.infoStr "Your JSON payload was a bit iffy. K thx bye." }] :=
  (failure_taxonomy (initSession (initTransport OPEN))
      { envDemo with parse := ParseOutcome.fail "Unexpected token" } rfl rfl).1
    "Unexpected token" rfl

/-- C10: a thrown value that is not an `Error` instance produces a
ServerError whose detail is the literal string "unknown error" in
development mode and the fixed generic notice otherwise; the thrown value
itself never appears in the response, as the response is the same whatever
the value was. -/
theorem non_error_fault_detail (s : Session) (env : ProcEnv) (v : String)
    (h : s.locked = false) (hcf : env.classifyFault = none)
    (hp : env.parse = ParseOutcome.ok) (hv : env.validate.valid = true)
    (hd : env.dispatch = DispatchOutcome.thrown (JsError.nonError v)) :
    (processMessage s env).1.sendCalls = s.sendCalls ++
      [{ type := OutgoingMsgType.ServerError,
         data := ResponseData.infoStr
           (if env.nodeEnv == "dev" then "unknown error"
            else "there was an error processing your payload") }] := by
  unfold processMessage tryBody
  rw [h, hp, hv, hd, hcf]
  simp only [if_false, if_true, Bool.false_eq_true]
  exact (send_effects _ _ env.sendEnv).2.2.2.2.2.2.2.2.1

/-- C10 witness: a concrete non-Error thrown value in development mode
yields ServerError with detail "unknown error". -/
theorem non_error_fault_detail_witness :
    (processMessage (initSession (initTransport OPEN))
        { envDemo with dispatch := DispatchOutcome.thrown (JsError.nonError "42") }).1.sendCalls
      = (initSession (initTransport OPEN)).sendCalls ++
        [{ type := OutgoingMsgType.ServerError,
           data := ResponseData.infoStr "unknown error" }] := by
  have h := non_error_fault_detail (initSession (initTransport OPEN))
    { envDemo with dispatch := DispatchOutcome.thrown (JsError.nonError "42") } "42"
    rfl rfl rfl rfl rfl
  simpa using h

/-- C5: `close()` closes the underlying transport with the normal-closure
code 1000 exactly when the transport is OPEN or CONNECTING, and cancels the
watchdog timer in every transport state; the source's `in`-operator check
(index membership in a two-element array, i.e. ready state 0 or 1)
coincides with the intended open-or-connecting predicate because
CONNECTING = 0 and OPEN = 1. -/
theorem close_normal_closure (s : Session) :
    ((close s).ws.closeCalls
      = if isOpenOrConnecting s.ws.readyState then s.ws.closeCalls ++ [1000]
        else s.ws.closeCalls)
    ∧ ((close s).ws.closeCalls = s.ws.closeCalls ++ [1000]
        ↔ isOpenOrConnecting s.ws.readyState = true)
    ∧ (close s).kickTimer = false
    ∧ jsInPairIdx s.ws.readyState = isOpenOrConnecting s.ws.readyState := by
  have hpred : jsInPairIdx s.ws.readyState = isOpenOrConnecting s.ws.readyState := by
    unfold jsInPairIdx isOpenOrConnecting OPEN CONNECTING
    exact Bool.or_comm _ _
  refine ⟨?_, ?_, rfl, hpred⟩
  · unfold close
    rw [hpred]
    rcases h : isOpenOrConnecting s.ws.readyState with _ | _ <;> simp
  · unfold close
    rw [hpred]
    rcases h : isOpenOrConnecting s.ws.readyState with _ | _ <;> simp

/-- C6: the watchdog's eviction decision, as a pure function of the current
time, `lastRecvTs` and the timeout, fires exactly when `lastRecvTs` is
unset or the elapsed silence strictly exceeds the timeout; silence exactly
equal to the timeout does not evict; a fresh session (no inbound message
yet) is evicted on its first tick; and the tick closes the session exactly
when the decision fires. -/
theorem watchdog_eviction (now timeoutMs : Int) (last : Option Int) (s : Session) :
    (kickDecision now last timeoutMs = true
      ↔ last = none ∨ ∃ t, last = some t ∧ now - t > timeoutMs)
    ∧ (∀ t : Int, now - t = timeoutMs → kickDecision now (some t) timeoutMs = false)
    ∧ kickDecision now none timeoutMs = true
    ∧ (initSession (initTransport OPEN)).lastRecvTs = none
    ∧ watchdogTick (initSession (initTransport OPEN)) now timeoutMs
      = close (initSession (initTransport OPEN))
    ∧ (kickDecision now s.lastRecvTs timeoutMs = true →
        watchdogTick s now timeoutMs = close s)
    ∧ (kickDecision now s.lastRecvTs timeoutMs = false →
        watchdogTick s now timeoutMs = s) := by
  refine ⟨?_, ?_, rfl, rfl, rfl, ?_, ?_⟩
  · cases last with
    | none => simp [kickDecision]
    | some t => simp [kickDecision]
  · intro t ht
    simp [kickDecision, ht]
  · intro hkd
    unfold watchdogTick
    rw [hkd]
    simp
  · intro hkd
    unfold watchdogTick
    rw [hkd]
    simp

/-- C6 witness: at the exact timeout boundary (now 100, last activity 40,
timeout 60) no eviction happens, and a session with no inbound message yet
is evicted on its first tick. -/
theorem watchdog_eviction_witness :
    kickDecision 100 (some 40) 60 = false
    ∧ kickDecision 100 none 60 = true
    ∧ watchdogTick (initSession (initTransport OPEN)) 100 60
      = close (initSession (initTransport OPEN)) := by
  refine ⟨?_, ?_, ?_⟩
  · exact (watchdog_eviction 100 60 (some 40) (initSession (initTransport OPEN))).2.1
      40 (by decide)
  · exact (watchdog_eviction 100 60 none (initSession (initTransport OPEN))).2.2.1
  · exact (watchdog_eviction 100 60 none (initSession (initTransport OPEN))).2.2.2.2.1

/-- C8: `close()` is idempotent: a second call leaves the state exactly as
the first left it (so the transport is closed at most once across both
calls and the timer cancellation is a harmless repeat), and `close` is a
total function, so neither call raises. -/
theorem close_idempotent (s : Session) :
    close (close s) = close s
    ∧ (close (close s)).ws.closeCalls.length ≤ s.ws.closeCalls.length + 1 := by
  constructor
  · unfold close jsInPairIdx
    rcases h0 : s.ws.readyState == 0 with _ | _ <;>
      rcases h1 : s.ws.readyState == 1 with _ | _ <;>
      simp_all [CLOSING]
  · unfold close jsInPairIdx
    rcases h0 : s.ws.readyState == 0 with _ | _ <;>
      rcases h1 : s.ws.readyState == 1 with _ | _ <;>
      simp_all [CLOSING]

/-- C9 counterexample: `setPlayer` overwrites unconditionally, so a second
call rebinds the session to a different identity: after binding player-a
and then player-b, `getPlayer` returns player-b, not the first-bound
player-a — refuting the claim that no later operation can rebind the
identity and that `getIdentity` always returns the first-bound identity. -/
theorem identity_rebind_counterexample :
    getPlayer (setPlayer (setPlayer (initSession (initTransport OPEN))
        { uuid := "player-a" }) { uuid := "player-b" })
      = some { uuid := "player-b" }
    ∧ getPlayer (setPlayer (setPlayer (initSession (initTransport OPEN))
        { uuid := "player-a" }) { uuid := "player-b" })
      ≠ some { uuid := "player-a" } := by
  refine ⟨rfl, ?_⟩
  intro hcontra
  simp [getPlayer, setPlayer] at hcontra

/-- C9 amended: `setPlayer` unconditionally binds the given identity,
overwriting any previous binding, and `getPlayer` returns the most recently
bound identity. -/
theorem identity_last_write_wins (s : Session) (p : Player) :
    (setPlayer s p).player = some p ∧ getPlayer (setPlayer s p) = some p :=
  ⟨rfl, rfl⟩

end GameApp
